import Mathlib

/-!
Shallow embedding of `src/bloom-filter.ts` from the rebloom client.

The source is a thin command layer: each public method of `BloomFilter`
assembles an ordered argument sequence `[operationName, filterName, ...]`
and hands it to `this.client.call` (the transport). We embed the argument
assembly as pure functions on lists of scalar arguments and prove the
specification claims about the built sequences.

Scalars (`StringOrNumber` in the source) are strings or numbers; numbers
are modelled as rationals, which the client passes through unchanged.
JavaScript truthiness of a possibly-absent number option (`if (errorRate)`)
is modelled as "present and nonzero".
-/

namespace Rebloom

/-- A scalar wire argument (`StringOrNumber` in the source): a string token
or a number. -/
inductive Arg where
  | str : String → Arg
  | num : Rat → Arg
  deriving DecidableEq, Repr

/-- The `InsertOptions` object accepted by `BloomFilter.insert`. A `none`
field models an absent (`undefined`) option; the source destructures
`upsert = true`, so the default is applied when the field is absent. -/
structure InsertOptions where
  errorRate : Option Rat
  capacity : Option Rat
  expansionRate : Option Rat
  upsert : Option Bool
  deriving DecidableEq, Repr

/-- The `ERROR` clause of `BF.INSERT`:
`if (errorRate) cmd.push('ERROR', errorRate)` — the option is tested for
truthiness, so the clause is emitted only when present and nonzero. -/
def errorClause : Option Rat → List Arg
  | some e => if e ≠ 0 then [Arg.str "ERROR", Arg.num e] else []
  | none => []

/-- The `CAPACITY` clause of `BF.INSERT`:
`if (capacity) cmd.push('CAPACITY', capacity)`. -/
def capacityClause : Option Rat → List Arg
  | some c => if c ≠ 0 then [Arg.str "CAPACITY", Arg.num c] else []
  | none => []

/-- The scaling clause of `BF.INSERT`:
`if (expansionRate) if (expansionRate < 0) cmd.push('NONSCALING')
else cmd.push('EXPANSION', expansionRate)` — the outer truthiness test
makes an `expansionRate` of exactly `0` skip the clause entirely. -/
def insertScalingClause : Option Rat → List Arg
  | some r =>
      if r ≠ 0 then
        if r < 0 then [Arg.str "NONSCALING"] else [Arg.str "EXPANSION", Arg.num r]
      else []
  | none => []

/-- The `NOCREATE` clause of `BF.INSERT`:
`if (!upsert) cmd.push('NOCREATE')`, with `upsert` defaulting to `true`
when absent. -/
def nocreateClause (upsert : Option Bool) : List Arg :=
  if upsert.getD true then [] else [Arg.str "NOCREATE"]

/-- The argument sequence built by `BloomFilter.insert`: the operation
token, the filter name, the optional clauses in their fixed order, then
the `ITEMS` marker followed by the items. -/
def insertCmd (name : String) (items : List Arg) (opts : InsertOptions) : List Arg :=
  [Arg.str "BF.INSERT", Arg.str name]
    ++ errorClause opts.errorRate
    ++ capacityClause opts.capacity
    ++ insertScalingClause opts.expansionRate
    ++ nocreateClause opts.upsert
    ++ Arg.str "ITEMS" :: items

/-- The argument sequence built by `BloomFilter.reserve`:
`expansionRate <= 0` yields the `NONSCALING` form, otherwise the
`EXPANSION` form. -/
def reserveCmd (name : String) (errorRate capacity expansionRate : Rat) : List Arg :=
  if expansionRate ≤ 0 then
    [Arg.str "BF.RESERVE", Arg.str name, Arg.num errorRate, Arg.num capacity,
     Arg.str "NONSCALING"]
  else
    [Arg.str "BF.RESERVE", Arg.str name, Arg.num errorRate, Arg.num capacity,
     Arg.str "EXPANSION", Arg.num expansionRate]

/-- `BloomFilter.reserve` declares `expansionRate = 2` as the default;
calling it without an expansion rate builds the command at rate `2`. -/
def reserveCmdDefault (name : String) (errorRate capacity : Rat) : List Arg :=
  reserveCmd name errorRate capacity 2

/-- The argument sequence built by `BloomFilter.add`. -/
def addCmd (name : String) (item : Arg) : List Arg :=
  [Arg.str "BF.ADD", Arg.str name, item]

/-- The argument sequence built by `BloomFilter.madd`: the items array is
spread directly after the name. -/
def maddCmd (name : String) (items : List Arg) : List Arg :=
  [Arg.str "BF.MADD", Arg.str name] ++ items

/-- The argument sequence built by `BloomFilter.exists`. -/
def existsCmd (name : String) (item : Arg) : List Arg :=
  [Arg.str "BF.EXISTS", Arg.str name, item]

/-- The argument sequence built by `BloomFilter.mexists`. -/
def mexistsCmd (name : String) (items : List Arg) : List Arg :=
  [Arg.str "BF.MEXISTS", Arg.str name] ++ items

/-- The argument sequence built by `BloomFilter.info`. -/
def infoCmd (name : String) : List Arg :=
  [Arg.str "BF.INFO", Arg.str name]

namespace BloomFilter

/-- The `BloomFilter.madd` method as the client executes it: `Except.ok args`
means the sequence `args` is submitted to the transport (`client.call`);
`Except.error` would model a local synchronous failure raised before any
submission. The source body is a single unconditional call, so no error
branch exists. -/
def madd (name : String) (items : List Arg) : Except String (List Arg) :=
  Except.ok (maddCmd name items)

/-- The `BloomFilter.mexists` method as the client executes it; like `madd`,
the source submits unconditionally. -/
def mexists (name : String) (items : List Arg) : Except String (List Arg) :=
  Except.ok (mexistsCmd name items)

/-- The `BloomFilter.insert` method as the client executes it; the source
builds the command and submits it unconditionally. -/
def insert (name : String) (items : List Arg) (opts : InsertOptions) :
    Except String (List Arg) :=
  Except.ok (insertCmd name items opts)

end BloomFilter

/-- C1: for every filter name, `insert` with options
`{errorRate: 0.01, capacity: 100, expansionRate: -1, upsert: false}` and
items `["a","b"]` builds exactly
`BF.INSERT <name> ERROR 0.01 CAPACITY 100 NONSCALING NOCREATE ITEMS a b`:
the optional clauses appear in the fixed order ERROR, CAPACITY, NONSCALING,
NOCREATE, and the ITEMS marker precedes the items. -/
theorem insert_full_options_assembly (name : String) :
    insertCmd name [Arg.str "a", Arg.str "b"]
        ⟨some (1/100), some 100, some (-1), some false⟩ =
      [Arg.str "BF.INSERT", Arg.str name, Arg.str "ERROR", Arg.num (1/100),
       Arg.str "CAPACITY", Arg.num 100, Arg.str "NONSCALING",
       Arg.str "NOCREATE", Arg.str "ITEMS", Arg.str "a", Arg.str "b"] := by
  norm_num [insertCmd, errorClause, capacityClause, insertScalingClause,
    nocreateClause]

/-- C4: for every filter name and items array (in particular `[1,2,3]`),
`insert` called with no options builds exactly
`BF.INSERT <name> ITEMS <items...>`: no ERROR, CAPACITY, NONSCALING,
EXPANSION or NOCREATE clause is emitted when the corresponding option is
absent. -/
theorem insert_no_options (name : String) (items : List Arg) :
    insertCmd name items ⟨none, none, none, none⟩ =
        [Arg.str "BF.INSERT", Arg.str name, Arg.str "ITEMS"] ++ items ∧
      insertCmd name [Arg.num 1, Arg.num 2, Arg.num 3] ⟨none, none, none, none⟩ =
        [Arg.str "BF.INSERT", Arg.str name, Arg.str "ITEMS",
         Arg.num 1, Arg.num 2, Arg.num 3] := by
  constructor <;>
    simp [insertCmd, errorClause, capacityClause, insertScalingClause,
      nocreateClause]

/-- C2: for every name, every valid `errorRate` in `(0,1)` and positive
`capacity`, `reserve` with `expansionRate <= 0` (in particular `= 0`)
builds `[BF.RESERVE, name, errorRate, capacity, NONSCALING]`, and with any
positive `expansionRate` builds
`[BF.RESERVE, name, errorRate, capacity, EXPANSION, expansionRate]` with
that exact rate value. -/
theorem reserve_scaling_clause (name : String) (e c r : Rat)
    (h1 : 0 < e) (h2 : e < 1) (h3 : 0 < c) :
    (r ≤ 0 →
        reserveCmd name e c r =
          [Arg.str "BF.RESERVE", Arg.str name, Arg.num e, Arg.num c,
           Arg.str "NONSCALING"]) ∧
      (0 < r →
        reserveCmd name e c r =
          [Arg.str "BF.RESERVE", Arg.str name, Arg.num e, Arg.num c,
           Arg.str "EXPANSION", Arg.num r]) := by
  constructor <;> intro h
  · simp [reserveCmd, h]
  · simp [reserveCmd, not_le.mpr h]

/-- C2 witness: the scaling rule evaluated at `errorRate = 1/100`,
`capacity = 100`, rates `0` and `3`. -/
theorem reserve_scaling_clause_witness :
    reserveCmd "filter" (1/100) 100 0 =
        [Arg.str "BF.RESERVE", Arg.str "filter", Arg.num (1/100), Arg.num 100,
         Arg.str "NONSCALING"] ∧
      reserveCmd "filter" (1/100) 100 3 =
        [Arg.str "BF.RESERVE", Arg.str "filter", Arg.num (1/100), Arg.num 100,
         Arg.str "EXPANSION", Arg.num 3] :=
  ⟨(reserve_scaling_clause "filter" (1/100) 100 0 (by norm_num) (by norm_num)
      (by norm_num)).1 le_rfl,
   (reserve_scaling_clause "filter" (1/100) 100 3 (by norm_num) (by norm_num)
      (by norm_num)).2 (by norm_num)⟩

/-- C3: for every name and items array, `insert` with `expansionRate`
exactly `0` emits neither NONSCALING nor an EXPANSION clause (the scaling
clause is silently skipped), whereas any negative `expansionRate` emits
NONSCALING and any positive one emits EXPANSION followed by that rate; so
`insert`'s non-scaling threshold is strictly negative, unlike `reserve`'s,
which emits NONSCALING at rate `0`. -/
theorem insert_scaling_threshold (name : String) (items : List Arg) (r e c : Rat) :
    insertCmd name items ⟨none, none, some 0, none⟩ =
        [Arg.str "BF.INSERT", Arg.str name, Arg.str "ITEMS"] ++ items ∧
      (r < 0 →
        insertCmd name items ⟨none, none, some r, none⟩ =
          [Arg.str "BF.INSERT", Arg.str name, Arg.str "NONSCALING",
           Arg.str "ITEMS"] ++ items) ∧
      (0 < r →
        insertCmd name items ⟨none, none, some r, none⟩ =
          [Arg.str "BF.INSERT", Arg.str name, Arg.str "EXPANSION", Arg.num r,
           Arg.str "ITEMS"] ++ items) ∧
      reserveCmd name e c 0 =
        [Arg.str "BF.RESERVE", Arg.str name, Arg.num e, Arg.num c,
         Arg.str "NONSCALING"] := by
  refine ⟨?_, ?_, ?_, ?_⟩
  · simp [insertCmd, errorClause, capacityClause, insertScalingClause,
      nocreateClause]
  · intro h
    simp [insertCmd, errorClause, capacityClause, insertScalingClause,
      nocreateClause, h, ne_of_lt h]
  · intro h
    simp [insertCmd, errorClause, capacityClause, insertScalingClause,
      nocreateClause, not_lt.mpr h.le, ne_of_gt h]
  · simp [reserveCmd]

/-- C3 witness: the three scaling behaviours of `insert` evaluated at rates
`0`, `-1` and `3` on one item. -/
theorem insert_scaling_threshold_witness :
    insertCmd "filter" [Arg.str "a"] ⟨none, none, some (-1), none⟩ =
        [Arg.str "BF.INSERT", Arg.str "filter", Arg.str "NONSCALING",
         Arg.str "ITEMS", Arg.str "a"] ∧
      insertCmd "filter" [Arg.str "a"] ⟨none, none, some 3, none⟩ =
        [Arg.str "BF.INSERT", Arg.str "filter", Arg.str "EXPANSION", Arg.num 3,
         Arg.str "ITEMS", Arg.str "a"] :=
  ⟨(insert_scaling_threshold "filter" [Arg.str "a"] (-1) 0 0).2.1 (by norm_num),
   (insert_scaling_threshold "filter" [Arg.str "a"] 3 0 0).2.2.1 (by norm_num)⟩

/-- C6: when `reserve` is called without an `expansionRate` argument the
default rate `2` applies, so the built command ends with the clause
`EXPANSION 2`, not the non-scaling marker. -/
theorem reserve_default_expansion (name : String) (e c : Rat) :
    reserveCmdDefault name e c =
      [Arg.str "BF.RESERVE", Arg.str name, Arg.num e, Arg.num c,
       Arg.str "EXPANSION", Arg.num 2] := by
  simp [reserveCmdDefault, reserveCmd]

/-- C7: for every name, items array and options, `insert` appends the
NOCREATE marker exactly when the `upsert` option is explicitly `false`;
when `upsert` is omitted it defaults to `true` and the built command is the
same as with `upsert = true`, with no NOCREATE marker. -/
theorem insert_nocreate_condition (name : String) (items : List Arg)
    (er cap exr : Option Rat) (u : Option Bool) :
    insertCmd name items ⟨er, cap, exr, u⟩ =
        [Arg.str "BF.INSERT", Arg.str name]
          ++ errorClause er ++ capacityClause cap ++ insertScalingClause exr
          ++ (if u = some false then [Arg.str "NOCREATE"] else [])
          ++ Arg.str "ITEMS" :: items ∧
      insertCmd name items ⟨er, cap, exr, none⟩ =
        insertCmd name items ⟨er, cap, exr, some true⟩ := by
  constructor
  · have hu : nocreateClause u = (if u = some false then [Arg.str "NOCREATE"] else []) := by
      cases u with
      | none => simp [nocreateClause]
      | some b => cases b <;> simp [nocreateClause]
    simp [insertCmd, hu]
  · rfl

/-- C8: for every operation (reserve, add, madd, exists, mexists, info,
insert) and all arguments, the built command starts with the operation's
name token followed by the filter's name. -/
theorem command_head_op_and_name (name : String) (e c r : Rat) (item : Arg)
    (items : List Arg) (opts : InsertOptions) :
    (reserveCmd name e c r).take 2 = [Arg.str "BF.RESERVE", Arg.str name] ∧
      (addCmd name item).take 2 = [Arg.str "BF.ADD", Arg.str name] ∧
      (maddCmd name items).take 2 = [Arg.str "BF.MADD", Arg.str name] ∧
      (existsCmd name item).take 2 = [Arg.str "BF.EXISTS", Arg.str name] ∧
      (mexistsCmd name items).take 2 = [Arg.str "BF.MEXISTS", Arg.str name] ∧
      (infoCmd name).take 2 = [Arg.str "BF.INFO", Arg.str name] ∧
      (insertCmd name items opts).take 2 = [Arg.str "BF.INSERT", Arg.str name] := by
  refine ⟨?_, rfl, rfl, rfl, rfl, rfl, rfl⟩
  unfold reserveCmd
  split <;> rfl

/-- C9: every command built by `insert` places the ITEMS marker after all
optional clauses and immediately before the items, and the marker token is
emitted by none of the optional clauses, so the builder emits it exactly
once; in particular `insert` with an empty items array and no options
builds and submits exactly `[BF.INSERT, <name>, ITEMS]`. -/
theorem insert_items_marker_position (name : String) (items : List Arg)
    (er cap exr : Option Rat) (u : Option Bool) :
    insertCmd name items ⟨er, cap, exr, u⟩ =
        ([Arg.str "BF.INSERT", Arg.str name]
            ++ errorClause er ++ capacityClause cap ++ insertScalingClause exr
            ++ nocreateClause u)
          ++ Arg.str "ITEMS" :: items ∧
      Arg.str "ITEMS" ∉ errorClause er ∧
      Arg.str "ITEMS" ∉ capacityClause cap ∧
      Arg.str "ITEMS" ∉ insertScalingClause exr ∧
      Arg.str "ITEMS" ∉ nocreateClause u ∧
      BloomFilter.insert name [] ⟨none, none, none, none⟩ =
        Except.ok [Arg.str "BF.INSERT", Arg.str name, Arg.str "ITEMS"] := by
  refine ⟨by simp [insertCmd], ?_, ?_, ?_, ?_, ?_⟩
  · cases er with
    | none => simp [errorClause]
    | some e => simp only [errorClause]; split <;> simp
  · cases cap with
    | none => simp [capacityClause]
    | some x => simp only [capacityClause]; split <;> simp
  · cases exr with
    | none => simp [insertScalingClause]
    | some x => simp only [insertScalingClause]; split <;> [skip; simp] <;> split <;> simp
  · unfold nocreateClause; split <;> simp
  · simp [BloomFilter.insert, insertCmd, errorClause, capacityClause,
      insertScalingClause, nocreateClause]

/-- C10: `insert` tests `errorRate`, `capacity` and `expansionRate` for
truthiness, so passing `0` for any of them omits the corresponding clause
entirely: at the built-command level a zero-valued option is
indistinguishable from an absent one. -/
theorem insert_zero_options_indistinguishable (name : String) (items : List Arg)
    (er cap exr : Option Rat) (u : Option Bool) :
    insertCmd name items ⟨some 0, cap, exr, u⟩ =
        insertCmd name items ⟨none, cap, exr, u⟩ ∧
      insertCmd name items ⟨er, some 0, exr, u⟩ =
        insertCmd name items ⟨er, none, exr, u⟩ ∧
      insertCmd name items ⟨er, cap, some 0, u⟩ =
        insertCmd name items ⟨er, cap, none, u⟩ := by
  refine ⟨?_, ?_, ?_⟩ <;>
    simp [insertCmd, errorClause, capacityClause, insertScalingClause]

/-- C5 counterexample: `madd`, `mexists` and `insert` called with an empty
items array do not fail locally: each submits a command to the transport
(the batch operations send just the operation token and the name, `insert`
sends the ITEMS marker with nothing after it). -/
theorem empty_batch_submitted_counterexample :
    BloomFilter.madd "filter" [] =
        Except.ok [Arg.str "BF.MADD", Arg.str "filter"] ∧
      BloomFilter.mexists "filter" [] =
        Except.ok [Arg.str "BF.MEXISTS", Arg.str "filter"] ∧
      BloomFilter.insert "filter" [] ⟨none, none, none, none⟩ =
        Except.ok [Arg.str "BF.INSERT", Arg.str "filter", Arg.str "ITEMS"] := by
  refine ⟨rfl, rfl, ?_⟩
  simp [BloomFilter.insert, insertCmd, errorClause, capacityClause,
    insertScalingClause, nocreateClause]

/-- C5 amended: for every filter name, `madd`, `mexists` and `insert`
called with an empty items array perform no local precondition check; each
builds and submits its command with the (empty) items spread in place, so
the transport receives `[BF.MADD, name]`, `[BF.MEXISTS, name]` and
`[BF.INSERT, name, ITEMS]` respectively. -/
theorem empty_batch_no_local_check (name : String) :
    BloomFilter.madd name [] =
        Except.ok [Arg.str "BF.MADD", Arg.str name] ∧
      BloomFilter.mexists name [] =
        Except.ok [Arg.str "BF.MEXISTS", Arg.str name] ∧
      BloomFilter.insert name [] ⟨none, none, none, none⟩ =
        Except.ok [Arg.str "BF.INSERT", Arg.str name, Arg.str "ITEMS"] := by
  refine ⟨rfl, rfl, ?_⟩
  simp [BloomFilter.insert, insertCmd, errorClause, capacityClause,
    insertScalingClause, nocreateClause]

end Rebloom
